import Mathlib

/-!
Shallow embedding of `src/mnubo/client.go` (smartobjects-go-client).

Modelling conventions:
  * Bytes are `List Nat`; Go strings and byte slices convert via `strBytes` /
    `bytesStr`.
  * Instants (`time.Time`) are integers counting milliseconds; `Before` is `<`
    and `Add` of a millisecond duration is integer addition.
  * A Go function that can return a non-nil `error`, or panic at runtime, is
    embedded with result type `GoOutcome`: `ok` for a normal return with nil
    error, `err` for a non-nil error (carrying the formatted message), `crash`
    for a runtime panic (nil-pointer dereference).
  * The HTTP transport (`http.Client.Do`) is an explicit parameter
    `transport : HttpRequest → Option HttpResponse`; `none` is a network
    failure, `some res` a delivered response.
  * `json.Unmarshal` into a target shape is an explicit decoder parameter
    (`Option`-valued: `none` means the bytes do not decode).
-/

/-- Outcome of running a Go function: normal return, non-nil error, or panic. -/
inductive GoOutcome (α : Type) : Type where
  | ok : α → GoOutcome α
  | err : String → GoOutcome α
  | crash : String → GoOutcome α
deriving DecidableEq

/-- The message of a Go runtime nil-pointer panic. -/
def nilDerefMsg : String := "runtime error: invalid memory address or nil pointer dereference"

/-- Go string → byte list (model: one byte per char code). -/
def strBytes (s : String) : List Nat := s.toList.map Char.toNat

/-- Byte list → Go string (used by `fmt.Errorf("request Error: %s", body)`). -/
def bytesStr (l : List Nat) : String := String.mk (l.map Char.ofNat)

/-- `CompressionConfig` from client.go lines 15-18. Go zero value: both false. -/
structure CompressionConfig where
  Request : Bool := false
  Response : Bool := false
deriving DecidableEq

/-- `AccessToken` from client.go lines 38-45. `ExpiresAt` is an instant in
milliseconds; the Go zero value has every field zero/empty. -/
structure AccessToken where
  Value : String := ""
  TokenType : String := ""
  ExpiresIn : Int := 0
  ExpiresAt : Int := 0
  Scope : String := ""
  Jti : String := ""
deriving DecidableEq

/-- `Mnubo` client struct from client.go lines 20-27. -/
structure Mnubo where
  ClientId : String := ""
  ClientSecret : String := ""
  ClientToken : String := ""
  Host : String := ""
  AccessToken : AccessToken := {}
  Compression : CompressionConfig := {}
deriving DecidableEq

/-- `ClientRequest` from client.go lines 29-36. -/
structure ClientRequest where
  authorization : String := ""
  method : String := ""
  path : String := ""
  contentType : String := ""
  payload : List Nat := []
  skipCompression : Bool := false
deriving DecidableEq

/-- `hasExpired` (client.go lines 47-50): `at.ExpiresAt.Before(now)`, i.e. the
stored expiry instant is strictly before the current instant. `now` is the
value of `time.Now()` at the call. -/
def AccessToken.hasExpired (tok : AccessToken) (now : Int) : Bool :=
  decide (tok.ExpiresAt < now)

/-- `NewClient` (client.go lines 52-58): remaining fields take Go zero values. -/
def NewClient (id : String) (secret : String) (host : String) : Mnubo :=
  { ClientId := id, ClientSecret := secret, Host := host }

/-- `NewClientWithToken` (client.go lines 60-65). -/
def NewClientWithToken (token : String) (host : String) : Mnubo :=
  { ClientToken := token, Host := host }

/-- `isUsingStaticToken` (client.go lines 67-69): `m.ClientToken != ""`. -/
def Mnubo.isUsingStaticToken (m : Mnubo) : Bool :=
  m.ClientToken != ""

/-- The gzip member header bytes ID1=0x1f, ID2=0x8b, CM=8 that
`gzip.NewReader` validates before anything else. -/
def gzipHeaderBytes : List Nat := [31, 139, 8]

/-- Model of the observable contract of the `compress/gzip` codec (standard
library, outside src/): a compressed stream is the gzip header followed by the
payload. The model keeps exactly the properties the client relies on: the
encoder emits a complete, valid stream, the stream determines the payload, and
decoding rejects input that does not start with a gzip header. -/
def doGzipPure (data : List Nat) : List Nat := gzipHeaderBytes ++ data

/-- Model of `gzip.NewReader` + `ioutil.ReadAll` (standard library, outside
src/): `none` when the input does not begin with a valid gzip header (the case
in which `gzip.NewReader` returns a nil reader and a non-nil error), `some`
the inflated payload otherwise. DEFLATE-level corruption after a valid header
(the `ReadAll` error branch of `doGunzip`) is not represented. -/
def gzipInflate : List Nat → Option (List Nat)
  | 31 :: 139 :: 8 :: rest => some rest
  | _ => none

/-- `doGzip` (client.go lines 104-119). `gzip.NewWriterLevel` fails only for
an invalid level and `gzip.BestSpeed` is valid; `Write`, `Flush` and `Close`
against a `bytes.Buffer` cannot fail; so every error branch of the source is
unreachable and the function deterministically writes the complete stream. -/
def doGzip (data : List Nat) : Except String (List Nat) :=
  Except.ok (doGzipPure data)

/-- `doGunzip` (client.go lines 121-133). The source runs `defer gr.Close()`
BEFORE checking the error from `gzip.NewReader`; when the input is not valid
gzip, `gr` is nil and the deferred `Close` dereferences the nil reader while
the function is returning, so the call panics instead of returning the decode
error. On valid input it writes the fully inflated content and returns nil. -/
def doGunzip (data : List Nat) : GoOutcome (List Nat) :=
  match gzipInflate data with
  | some ud => GoOutcome.ok ud
  | none => GoOutcome.crash nilDerefMsg

/-- Outgoing HTTP request object (`http.Request`, reduced to what the client
sets: method, URL, headers in insertion order, body bytes). -/
structure HttpRequest where
  method : String := ""
  url : String := ""
  headers : List (String × String) := []
  body : List Nat := []
deriving DecidableEq

/-- Incoming HTTP response, reduced to what `doRequest` reads: status code,
the `Content-Encoding` header value (empty when absent), body bytes. -/
structure HttpResponse where
  StatusCode : Nat := 0
  contentEncoding : String := ""
  body : List Nat := []
deriving DecidableEq

/-- HTTP separator characters (RFC 2616) rejected inside a method token. -/
def httpSeparators : List Char := "()<>@,;:\\\"/[]?=\x7b\x7d \t".toList

/-- A character allowed in an HTTP method token: visible ASCII, no separator. -/
def isHttpTokenChar (c : Char) : Bool :=
  33 ≤ c.toNat && c.toNat ≤ 126 && !(httpSeparators.contains c)

/-- Model of `net/http`'s `validMethod` (standard library, outside src/): the
empty method is replaced by GET, otherwise every character must be a token
character. -/
def validMethod (s : String) : Bool :=
  (if s = "" then "GET" else s).toList.all isHttpTokenChar

/-- Model of `http.NewRequest` (standard library, outside src/): on an invalid
method it returns a nil request and a non-nil error (here `none`); otherwise a
request with the given method, URL and body and no headers yet. -/
def httpNewRequest (method : String) (url : String) (body : List Nat) :
    Option HttpRequest :=
  if validMethod method then
    some { method := method, url := url, headers := [], body := body }
  else
    none

/-- Request construction phase of `doRequest` (client.go lines 136-168):
compress the payload when configured and not skipped, build the request, add
headers. The gzip step cannot fail (see `doGzip`), so the unable-to-gzip
branch is unreachable. When `http.NewRequest` fails it returns a nil request,
and the source calls `req.Header.Add` on it BEFORE the `err != nil` check at
line 166, so the call panics with a nil dereference instead of returning the
construction error. The header guard for `Content-Encoding` (line 158) tests
only `m.Compression.Request`, not `cr.skipCompression`. -/
def Mnubo.buildRequest (m : Mnubo) (cr : ClientRequest) : GoOutcome HttpRequest :=
  let payload :=
    if m.Compression.Request && !cr.skipCompression then doGzipPure cr.payload
    else cr.payload
  match httpNewRequest cr.method (m.Host ++ cr.path) payload with
  | none => GoOutcome.crash nilDerefMsg
  | some req =>
    let hs := [("Content-Type", cr.contentType), ("X-MNUBO-SDK", "Go")]
    let hs := hs ++ (if cr.authorization ≠ "" then [("Authorization", cr.authorization)] else [])
    let hs := hs ++ (if m.Compression.Request then [("Content-Encoding", "gzip")] else [])
    let hs := hs ++ (if m.Compression.Response then [("Accept-Encoding", "gzip")] else [])
    GoOutcome.ok { req with headers := hs }

/-- `doRequest` (client.go lines 135-197): build the request, dispatch it on
the transport, read the body, decompress when the response carries
`Content-Encoding: gzip` (a panic from `doGunzip` propagates), then classify:
2xx returns the body, anything else returns an error embedding the body. -/
def Mnubo.doRequest (m : Mnubo) (transport : HttpRequest → Option HttpResponse)
    (cr : ClientRequest) : GoOutcome (List Nat) :=
  match m.buildRequest cr with
  | GoOutcome.err e => GoOutcome.err e
  | GoOutcome.crash p => GoOutcome.crash p
  | GoOutcome.ok req =>
    match transport req with
    | none => GoOutcome.err "unable to send client request"
    | some res =>
      match (if res.contentEncoding = "gzip" then doGunzip res.body
             else GoOutcome.ok res.body) with
      | GoOutcome.err e => GoOutcome.err ("unable to gunzip response: " ++ e)
      | GoOutcome.crash p => GoOutcome.crash p
      | GoOutcome.ok body =>
        if 200 ≤ res.StatusCode ∧ res.StatusCode < 300 then GoOutcome.ok body
        else GoOutcome.err ("request Error: " ++ bytesStr body)

/-- The standard base64 alphabet. -/
def base64Alphabet : List Char :=
  "ABCDEFGHIJKLMNOPQRSTUVWXYZabcdefghijklmnopqrstuvwxyz0123456789+/".toList

/-- One base64 digit. -/
def b64Char (n : Nat) : Char := base64Alphabet.getD n '='

/-- `base64.StdEncoding.EncodeToString` (standard library, outside src/). -/
def base64Encode : List Nat → String
  | [] => ""
  | [a] => String.mk [b64Char (a / 4), b64Char (a % 4 * 16), '=', '=']
  | [a, b] => String.mk [b64Char (a / 4), b64Char (a % 4 * 16 + b / 16),
      b64Char (b % 16 * 4), '=']
  | a :: b :: c :: rest =>
    String.mk [b64Char (a / 4), b64Char (a % 4 * 16 + b / 16),
      b64Char (b % 16 * 4 + c / 64), b64Char (c % 64)] ++ base64Encode rest

/-- Model of `time.ParseDuration` (standard library, outside src/) applied to
the string `fmt.Sprintf("%dms", n)`: the string is always syntactically a
duration, so parsing succeeds with n milliseconds unless the value in
nanoseconds (n·10^6) overflows a signed 64-bit integer, in which case
`ParseDuration` returns a zero duration and a non-nil error. -/
def parseDurationMs (n : Int) : Option Int :=
  if n.natAbs * 1000000 ≤ 9223372036854775807 then some n else none

/-- The `ClientRequest` built by `GetAccessTokenWithScope` (client.go lines
76-86): Basic auth from base64(id:secret), form-urlencoded POST to
/oauth/token, compression skipped. -/
def Mnubo.tokenRequest (m : Mnubo) (scope : String) : ClientRequest :=
  { authorization := "Basic " ++ base64Encode (strBytes (m.ClientId ++ ":" ++ m.ClientSecret))
    method := "POST"
    path := "/oauth/token"
    contentType := "application/x-www-form-urlencoded"
    payload := strBytes ("grant_type=client_credentials&scope=" ++ scope)
    skipCompression := true }

/-- `GetAccessTokenWithScope` (client.go lines 75-102). Returns the outcome
and the client state after the call (the receiver is a pointer; only
`m.AccessToken` is ever written). `unmarshalToken` stands for `json.Unmarshal`
into `AccessToken` (`none`: the body does not decode; the stored token is not
touched on that path). On a decoded token the code stamps
`ExpiresAt = now + ExpiresIn ms`; when `time.ParseDuration` overflows, the
duration is zero, so the token is stamped `ExpiresAt = now`, STORED anyway,
and the call returns the parse error (source lines 96-99 assign
`m.AccessToken` before returning `err`). The Go function also returns the
partially built token alongside a non-nil error; the model keeps the error. -/
def GetAccessTokenWithScope (m : Mnubo)
    (transport : HttpRequest → Option HttpResponse)
    (unmarshalToken : List Nat → Option AccessToken)
    (now : Int) (scope : String) : GoOutcome AccessToken × Mnubo :=
  match m.doRequest transport (m.tokenRequest scope) with
  | GoOutcome.crash p => (GoOutcome.crash p, m)
  | GoOutcome.err e => (GoOutcome.err e, m)
  | GoOutcome.ok body =>
    match unmarshalToken body with
    | none => (GoOutcome.err "unable to unmarshall body", m)
    | some tok =>
      match parseDurationMs tok.ExpiresIn with
      | some dur =>
        let tok2 := { tok with ExpiresAt := now + dur }
        (GoOutcome.ok tok2, { m with AccessToken := tok2 })
      | none =>
        let tok2 := { tok with ExpiresAt := now }
        (GoOutcome.err "time: invalid duration", { m with AccessToken := tok2 })

/-- `GetAccessToken` (client.go lines 71-73). -/
def GetAccessToken (m : Mnubo)
    (transport : HttpRequest → Option HttpResponse)
    (unmarshalToken : List Nat → Option AccessToken)
    (now : Int) : GoOutcome AccessToken × Mnubo :=
  GetAccessTokenWithScope m transport unmarshalToken now "ALL"

/-- Observable result of one `doRequestWithAuthentication` call: the returned
outcome, the client state afterwards, whether `GetAccessToken` was invoked
during the call, and the Authorization value of the dispatched request
(`none` when the call failed before dispatching one). The last two fields are
observation fields recording the call's behavior for the temporal claims. -/
structure AuthCallResult where
  outcome : GoOutcome Unit
  finalState : Mnubo
  acquiredToken : Bool
  sentAuthorization : Option String
deriving DecidableEq

/-- Dispatch phase shared by every branch of `doRequestWithAuthentication`
(client.go lines 213-219): send the request, then `json.Unmarshal` the data
into the caller's response shape (`unmarshalResp`: `some e` is a decode error
message, `none` is success). -/
def Mnubo.dispatchAuthed (m : Mnubo)
    (transport : HttpRequest → Option HttpResponse)
    (unmarshalResp : List Nat → Option String)
    (cr : ClientRequest) (acquired : Bool) : AuthCallResult :=
  match m.doRequest transport cr with
  | GoOutcome.crash p =>
    { outcome := GoOutcome.crash p, finalState := m, acquiredToken := acquired
      sentAuthorization := some cr.authorization }
  | GoOutcome.err e =>
    { outcome := GoOutcome.err e, finalState := m, acquiredToken := acquired
      sentAuthorization := some cr.authorization }
  | GoOutcome.ok data =>
    match unmarshalResp data with
    | some e =>
      { outcome := GoOutcome.err e, finalState := m, acquiredToken := acquired
        sentAuthorization := some cr.authorization }
    | none =>
      { outcome := GoOutcome.ok (), finalState := m, acquiredToken := acquired
        sentAuthorization := some cr.authorization }

/-- `doRequestWithAuthentication` (client.go lines 199-220). Static-token
mode uses `Bearer {ClientToken}` directly; otherwise an expired (or zero)
stored token triggers one `GetAccessToken` call whose failure is returned
without dispatching the request; on success (or a still-valid token) the
request goes out with `Bearer {m.AccessToken.Value}` read from the updated
state. -/
def doRequestWithAuthentication (m : Mnubo)
    (transport : HttpRequest → Option HttpResponse)
    (unmarshalToken : List Nat → Option AccessToken)
    (unmarshalResp : List Nat → Option String)
    (now : Int) (cr : ClientRequest) : AuthCallResult :=
  if m.isUsingStaticToken then
    m.dispatchAuthed transport unmarshalResp
      { cr with authorization := "Bearer " ++ m.ClientToken } false
  else if m.AccessToken.hasExpired now then
    match GetAccessToken m transport unmarshalToken now with
    | (GoOutcome.ok _, m2) =>
      m2.dispatchAuthed transport unmarshalResp
        { cr with authorization := "Bearer " ++ m2.AccessToken.Value } true
    | (GoOutcome.err e, m2) =>
      { outcome := GoOutcome.err e, finalState := m2, acquiredToken := true
        sentAuthorization := none }
    | (GoOutcome.crash p, m2) =>
      { outcome := GoOutcome.crash p, finalState := m2, acquiredToken := true
        sentAuthorization := none }
  else
    m.dispatchAuthed transport unmarshalResp
      { cr with authorization := "Bearer " ++ m.AccessToken.Value } false

/-! Concrete instances used by the claim evaluations below. -/

/-- A dynamic-mode client with default (disabled) compression. -/
def plainClient : Mnubo := NewClient "a" "b" "h"

/-- A plain JSON GET request with no forced compression skip. -/
def plainRequest : ClientRequest :=
  { method := "GET", path := "/x", contentType := "application/json" }

/-- A response with the given status, no content encoding, body "ok". -/
def statusResponse (s : Nat) : HttpResponse := { StatusCode := s, body := [111, 107] }

/-- A gzip-encoded response with the given status carrying payload "hi". -/
def gzipResponse (s : Nat) : HttpResponse :=
  { StatusCode := s, contentEncoding := "gzip", body := doGzipPure [104, 105] }

/-- A client whose config enables request compression only. -/
def c1client : Mnubo :=
  { NewClient "id" "secret" "https://host" with
    Compression := { Request := true, Response := false } }

/-- A previously stored access token, still valid until instant 100. -/
def oldStoredToken : AccessToken := { Value := "old", ExpiresAt := 100 }

/-- A dynamic client holding `oldStoredToken`. -/
def c5client : Mnubo := { NewClient "a" "b" "h" with AccessToken := oldStoredToken }

/-- A token whose `expires_in` (10^13 ms) overflows `time.ParseDuration`
when rendered in nanoseconds. -/
def hugeExpiryToken : AccessToken :=
  { Value := "new", TokenType := "bearer", ExpiresIn := 10000000000000, Scope := "ALL" }

/-- A bare 200 response with empty body. -/
def okResponse : HttpResponse := { StatusCode := 200 }

/-- A token that expires exactly at instant 5. -/
def boundaryToken : AccessToken := { ExpiresAt := 5 }

/-- An already-expired token as hypothetically injected client state. -/
def expiredInjectedToken : AccessToken := { Value := "inj", ExpiresAt := -1000 }

/-- A request whose method contains a space, which `http.NewRequest` rejects. -/
def badMethodRequest : ClientRequest :=
  { method := "BAD METHOD", path := "/x", contentType := "application/json" }

/-- Every branch of `dispatchAuthed` reports the `acquired` flag it was given
and the Authorization value of the request it dispatched. -/
theorem dispatchAuthed_fields (m : Mnubo)
    (transport : HttpRequest → Option HttpResponse)
    (ur : List Nat → Option String) (cr : ClientRequest) (a : Bool) :
    (m.dispatchAuthed transport ur cr a).acquiredToken = a ∧
    (m.dispatchAuthed transport ur cr a).sentAuthorization = some cr.authorization := by
  constructor <;>
    (unfold Mnubo.dispatchAuthed
     split <;> first | rfl | (split <;> rfl))

/-- Claim C1 (code-bug evaluation): with `CompressionConfig.Request = true`,
the token-endpoint request (the one built by `GetAccessTokenWithScope` with
`skipCompression = true`) IS constructed with the `Content-Encoding: gzip`
header while its body stays uncompressed form data, because the header guard
at client.go line 158 tests only `m.Compression.Request` and ignores
`cr.skipCompression`; the claim says that request never carries the header. -/
theorem c1_token_request_carries_gzip_header :
    ∃ req, c1client.buildRequest (c1client.tokenRequest "ALL") = GoOutcome.ok req ∧
      ("Content-Encoding", "gzip") ∈ req.headers ∧
      req.body = strBytes "grant_type=client_credentials&scope=ALL" := by
  refine ⟨_, rfl, ?_, rfl⟩
  decide

/-- Claim C2 (code-bug evaluation): on input that is not a valid gzip stream
(the empty buffer, or bytes without the gzip header), `doGunzip` does not
return a decode error: `gzip.NewReader` returns a nil reader together with the
error, and the `defer gr.Close()` registered before the error check
dereferences the nil reader while the function returns, so the call panics. -/
theorem c2_invalid_gzip_crash :
    doGunzip [] = GoOutcome.crash nilDerefMsg ∧
    doGunzip [0, 1, 2] = GoOutcome.crash nilDerefMsg ∧
    ∀ e, doGunzip [] ≠ GoOutcome.err e := by
  refine ⟨rfl, rfl, fun e h => GoOutcome.noConfusion h⟩

/-- Claim C3: decompressing the result of compressing any payload P yields
exactly P, with the compression step succeeding (`doGzip` returns nil error)
and the decompression step succeeding (`doGunzip` returns nil error). -/
theorem c3_gzip_roundtrip (P : List Nat) :
    doGzip P = Except.ok (doGzipPure P) ∧
    doGunzip (doGzipPure P) = GoOutcome.ok P :=
  ⟨rfl, rfl⟩

/-- Claim C4 counterexample: the claim says that at the instant
`t = ExpiresAt` the token is already expired; but `hasExpired` uses
`ExpiresAt.Before(now)`, which is strict, so a token expiring at instant 5 is
still reported as NOT expired at instant 5. -/
theorem c4_counterexample : AccessToken.hasExpired boundaryToken 5 = false := by decide

/-- Claim C4 (amended): `hasExpired` returns true exactly when the current
instant is strictly AFTER `ExpiresAt`; at `t = ExpiresAt` the token is still
treated as valid; a zero-value (absent) token is expired at every positive
instant. -/
theorem c4_expiry_strict (tok : AccessToken) (now : Int) :
    (tok.hasExpired now = true ↔ tok.ExpiresAt < now) ∧
    tok.hasExpired tok.ExpiresAt = false ∧
    (0 < now → AccessToken.hasExpired {} now = true) := by
  refine ⟨?_, ?_, ?_⟩
  · simp [AccessToken.hasExpired]
  · simp [AccessToken.hasExpired]
  · intro h
    show decide ((0 : Int) < now) = true
    exact decide_eq_true h

/-- Witness for `c4_expiry_strict` at concrete inputs: a token expiring at 5
is expired at 9, and the zero-value token is expired at 3. -/
theorem c4_witness :
    AccessToken.hasExpired boundaryToken 9 = true ∧
    AccessToken.hasExpired {} 3 = true :=
  ⟨(c4_expiry_strict boundaryToken 9).1.mpr (by decide),
   (c4_expiry_strict boundaryToken 3).2.2 (by decide)⟩

/-- Claim C5 (amended): when the token request itself fails (transport error
or non-2xx status, both surfacing as an error from `doRequest`), or when the
response body does not decode as a token, `GetAccessTokenWithScope` returns an
error and leaves the client state — in particular the stored token — exactly
as it was. (The `expires_in` duration-overflow path is the exception, see the
counterexample.) -/
theorem c5_failure_leaves_token (m : Mnubo)
    (transport : HttpRequest → Option HttpResponse)
    (ut : List Nat → Option AccessToken) (now : Int) (scope : String) :
    ((∃ e, m.doRequest transport (m.tokenRequest scope) = GoOutcome.err e) →
       (GetAccessTokenWithScope m transport ut now scope).2 = m) ∧
    (∀ body, m.doRequest transport (m.tokenRequest scope) = GoOutcome.ok body →
       ut body = none →
       GetAccessTokenWithScope m transport ut now scope =
         (GoOutcome.err "unable to unmarshall body", m)) := by
  constructor
  · rintro ⟨e, he⟩
    unfold GetAccessTokenWithScope
    rw [he]
  · intro body hb hu
    simp [GetAccessTokenWithScope, hb, hu]

/-- Claim C5 counterexample: a syntactically valid token response whose
`expires_in` is 10^13 ms makes `time.ParseDuration` overflow; the call then
returns a non-nil error AND overwrites the previously stored token (client.go
lines 96-99 assign `m.AccessToken` before returning the error), so "returns an
error and leaves the stored token untouched" fails. -/
theorem c5_counterexample :
    (∃ e, (GetAccessTokenWithScope c5client (fun _ => some okResponse)
        (fun _ => some hugeExpiryToken) 50 "ALL").1 = GoOutcome.err e) ∧
    (GetAccessTokenWithScope c5client (fun _ => some okResponse)
        (fun _ => some hugeExpiryToken) 50 "ALL").2.AccessToken ≠ oldStoredToken := by
  exact ⟨⟨"time: invalid duration", by decide⟩, by decide⟩

/-- Witness for `c5_failure_leaves_token`: a transport failure on the token
request leaves the stored token untouched. -/
theorem c5_witness :
    (GetAccessTokenWithScope c5client (fun _ => none) (fun _ => none) 0 "ALL").2 = c5client :=
  (c5_failure_leaves_token c5client (fun _ => none) (fun _ => none) 0 "ALL").1
    ⟨"unable to send client request", by decide⟩

/-- Claim C6: for any client, request and delivered (non-gzip) response,
`doRequest` classifies exactly the inclusive status range 200-299 as success,
returning the body, and everything else as failure, returning an error that
embeds the response body as text. -/
theorem c6_status_boundary (m : Mnubo) (cr : ClientRequest) (res : HttpResponse)
    (hm : validMethod cr.method = true) (he : res.contentEncoding ≠ "gzip") :
    m.doRequest (fun _ => some res) cr =
      if 200 ≤ res.StatusCode ∧ res.StatusCode < 300 then GoOutcome.ok res.body
      else GoOutcome.err ("request Error: " ++ bytesStr res.body) := by
  unfold Mnubo.doRequest Mnubo.buildRequest httpNewRequest
  simp [hm, he]

/-- Witness for `c6_status_boundary` at the boundary statuses: 199 and 300
are failures carrying the body, 200 and 299 are successes. -/
theorem c6_witness :
    plainClient.doRequest (fun _ => some (statusResponse 199)) plainRequest =
      GoOutcome.err ("request Error: " ++ bytesStr [111, 107]) ∧
    plainClient.doRequest (fun _ => some (statusResponse 200)) plainRequest =
      GoOutcome.ok [111, 107] ∧
    plainClient.doRequest (fun _ => some (statusResponse 299)) plainRequest =
      GoOutcome.ok [111, 107] ∧
    plainClient.doRequest (fun _ => some (statusResponse 300)) plainRequest =
      GoOutcome.err ("request Error: " ++ bytesStr [111, 107]) := by
  refine ⟨?_, ?_, ?_, ?_⟩ <;>
    rw [c6_status_boundary plainClient plainRequest _ (by decide) (by decide)] <;> decide

/-- Claim C7: whenever the response carries `Content-Encoding: gzip`, the body
is decompressed before status classification and before any JSON decoding, for
EVERY client configuration (`m` is arbitrary, so in particular
`Compression.Response = false`): a 2xx response returns the inflated payload
and a non-2xx response embeds the inflated payload in the error. -/
theorem c7_gzip_response_decompressed (m : Mnubo) (cr : ClientRequest)
    (res : HttpResponse) (b : List Nat)
    (hm : validMethod cr.method = true) (he : res.contentEncoding = "gzip")
    (hb : res.body = doGzipPure b) :
    m.doRequest (fun _ => some res) cr =
      if 200 ≤ res.StatusCode ∧ res.StatusCode < 300 then GoOutcome.ok b
      else GoOutcome.err ("request Error: " ++ bytesStr b) := by
  unfold Mnubo.doRequest Mnubo.buildRequest httpNewRequest
  simp [hm, he, hb, doGunzip, doGzipPure, gzipHeaderBytes, gzipInflate]

/-- Witness for `c7_gzip_response_decompressed` on a client with response
compression disabled: a gzip-encoded 200 response yields the inflated bytes,
and a gzip-encoded 401 response yields an error embedding the inflated text. -/
theorem c7_witness :
    plainClient.doRequest (fun _ => some (gzipResponse 200)) plainRequest =
      GoOutcome.ok [104, 105] ∧
    plainClient.doRequest (fun _ => some (gzipResponse 401)) plainRequest =
      GoOutcome.err ("request Error: " ++ bytesStr [104, 105]) := by
  constructor <;>
    rw [c7_gzip_response_decompressed plainClient plainRequest _ [104, 105]
      (by decide) (by decide) (by decide)] <;> decide

/-- Claim C8: a client whose `ClientToken` is non-empty (static-token mode,
as built by `NewClientWithToken`) never invokes token acquisition in
`doRequestWithAuthentication` — whatever `AccessToken` state was injected,
including an already-expired one, and whatever the transport, decoders, config
and instant are — and the dispatched request carries `Bearer {ClientToken}`. -/
theorem c8_static_never_acquires (token : String) (host : String)
    (tok : AccessToken) (cc : CompressionConfig)
    (transport : HttpRequest → Option HttpResponse)
    (ut : List Nat → Option AccessToken) (ur : List Nat → Option String)
    (now : Int) (cr : ClientRequest) (h : token ≠ "") :
    (doRequestWithAuthentication
        { NewClientWithToken token host with AccessToken := tok, Compression := cc }
        transport ut ur now cr).acquiredToken = false ∧
    (doRequestWithAuthentication
        { NewClientWithToken token host with AccessToken := tok, Compression := cc }
        transport ut ur now cr).sentAuthorization = some ("Bearer " ++ token) := by
  have hs : ({ NewClientWithToken token host with
      AccessToken := tok, Compression := cc } : Mnubo).isUsingStaticToken = true := by
    show (token != "") = true
    simp [bne_iff_ne, h]
  unfold doRequestWithAuthentication
  rw [if_pos hs]
  exact dispatchAuthed_fields _ transport ur _ false

/-- Witness for `c8_static_never_acquires`: a static client with an injected
expired token and a failing transport still skips acquisition and sends
`Bearer stat`. -/
theorem c8_witness :
    (doRequestWithAuthentication
        { NewClientWithToken "stat" "h" with
          AccessToken := expiredInjectedToken, Compression := {} }
        (fun _ => none) (fun _ => none) (fun _ => none) 0 {}).acquiredToken = false ∧
    (doRequestWithAuthentication
        { NewClientWithToken "stat" "h" with
          AccessToken := expiredInjectedToken, Compression := {} }
        (fun _ => none) (fun _ => none) (fun _ => none) 0 {}).sentAuthorization =
      some ("Bearer " ++ "stat") :=
  c8_static_never_acquires "stat" "h" expiredInjectedToken {}
    (fun _ => none) (fun _ => none) (fun _ => none) 0 {} (by decide)

/-- Claim C9 (code-bug evaluation): when `http.NewRequest` fails (here: a
method containing a space), `doRequest` does not return the construction
error: the request object is nil and the header-setting statements that
execute before the error check dereference it, so the call panics. -/
theorem c9_nil_request_crash :
    plainClient.doRequest (fun _ => none) badMethodRequest = GoOutcome.crash nilDerefMsg ∧
    ∀ e, plainClient.doRequest (fun _ => none) badMethodRequest ≠ GoOutcome.err e := by
  have h1 : plainClient.doRequest (fun _ => none) badMethodRequest =
      GoOutcome.crash nilDerefMsg := by decide
  exact ⟨h1, fun e h2 => GoOutcome.noConfusion (h1.symm.trans h2)⟩

/-- Claim C10: credential mode is decided solely by `ClientToken` being
non-empty at call time, not by the constructor used: a client built with
`NewClientWithToken "" host` is treated as dynamic, so
`doRequestWithAuthentication` checks expiry (the zero-value token is expired
at any positive instant) and attempts token acquisition. -/
theorem c10_empty_static_token_is_dynamic (host : String)
    (transport : HttpRequest → Option HttpResponse)
    (ut : List Nat → Option AccessToken) (ur : List Nat → Option String)
    (cr : ClientRequest) (now : Int) (h : 0 < now) :
    (NewClientWithToken "" host).isUsingStaticToken = false ∧
    (doRequestWithAuthentication (NewClientWithToken "" host)
        transport ut ur now cr).acquiredToken = true := by
  have hs : (NewClientWithToken "" host).isUsingStaticToken = false := by
    show (("" : String) != "") = false
    decide
  refine ⟨hs, ?_⟩
  unfold doRequestWithAuthentication
  rw [if_neg (by rw [hs]; exact Bool.false_ne_true)]
  have hexp : (NewClientWithToken "" host).AccessToken.hasExpired now = true := by
    show decide ((0 : Int) < now) = true
    exact decide_eq_true h
  rw [if_pos hexp]
  rcases hg : GetAccessToken (NewClientWithToken "" host) transport ut now with ⟨o, m2⟩
  rcases o with tk | er | p
  · exact (dispatchAuthed_fields m2 transport ur _ true).1
  · rfl
  · rfl

/-- Witness for `c10_empty_static_token_is_dynamic` at concrete inputs. -/
theorem c10_witness :
    (NewClientWithToken "" "h").isUsingStaticToken = false ∧
    (doRequestWithAuthentication (NewClientWithToken "" "h")
        (fun _ => none) (fun _ => none) (fun _ => none) 1 {}).acquiredToken = true :=
  c10_empty_static_token_is_dynamic "h" (fun _ => none) (fun _ => none)
    (fun _ => none) {} 1 (by decide)
